import Mathlib

/-!
Verification of the vechain-trading repository: a shallow embedding of the
signer resolution, quote service, allowance orchestration, swap execution
and transaction pipeline, with theorems settling the specification's claims.

Modelling conventions:
* JavaScript numbers are modelled exactly over the rationals, with explicit
  NaN and infinity values where the scripts can produce them.
* JavaScript bigint values are modelled as integers.
* An awaited call that rejects, and a throw, are modelled as Except.error.
* External network endpoints (the Thor node, the DEX router reads, the
  token allowance read) are inputs of each run: a record of functions gives
  the outcome every awaited call would produce.
* The external SDK's pure cryptography (BIP39/BIP32 key derivation, address
  computation, transaction signing) is a parameter pack; theorems hold for
  any such pack, which in particular models that derivation is a
  deterministic function of its input.
-/

deriving instance DecidableEq for Except

namespace VechainTrading

/-- A JavaScript number as the trading scripts use it: an ordinary number
(modelled exactly as a rational), NaN, or a signed infinity. -/
inductive JsNumber where
  | num (q : ℚ)
  | nan
  | inf (positive : Bool)
deriving DecidableEq

/-- JavaScript division on modelled numbers (signed zero is not modelled;
division of finite by zero follows the numerator's sign). -/
def jsDiv : JsNumber → JsNumber → JsNumber
  | .nan, _ => .nan
  | _, .nan => .nan
  | .num a, .num b =>
      if b = 0 then (if a = 0 then .nan else .inf (decide (0 < a))) else .num (a / b)
  | .num _, .inf _ => .num 0
  | .inf s, .num b => if b < 0 then .inf (!s) else .inf s
  | .inf _, .inf _ => .nan

/-- Whitespace trim over the character list (the library's String.trim is
byte-position based and is left opaque by kernel reduction, so the model
re-implements it structurally). -/
def jsTrim (s : String) : String :=
  String.mk (((s.data.dropWhile Char.isWhitespace).reverse.dropWhile Char.isWhitespace).reverse)

/-- Decimal value of an all-digit character list. -/
def digitsToNat (cs : List Char) : Nat :=
  cs.foldl (fun a c => 10 * a + (c.toNat - 48)) 0

/-- Model of the JavaScript BigInt(string) conversion on the string shapes
the scripts feed it: the trimmed empty string converts to 0, decimal strings
(optionally negative) convert to their value, anything else throws (none).
The unused hexadecimal/octal/binary prefixes are not modelled. -/
def jsBigIntOfString (s : String) : Option ℤ :=
  match (jsTrim s).data with
  | [] => some 0
  | c :: rest =>
    if c = Char.ofNat 45 then
      if rest ≠ [] ∧ rest.all Char.isDigit then some (-(digitsToNat rest : ℤ)) else none
    else if (c :: rest).all Char.isDigit then some (digitsToNat (c :: rest))
    else none

/-- JavaScript template-literal interpolation of a possibly undefined
string value. -/
def jsInterp (o : Option String) : String := o.getD "undefined"

/-- Thrown JavaScript errors, one constructor per throw site of the
embedded code; `raised` stands for a plain Error coming from the network,
the chain or a runtime conversion, identified by its message. The
constructor names follow the specification's error taxonomy where it names
the throw site (CredentialError, MalformedKeyError, MalformedMnemonicError). -/
inductive JsError where
  | raised (msg : String)
  | malformedMnemonic (gotWords : Nat)
  | mnemonicDerivation (inner : JsError)
  | addressDerivation (inner : JsError)
  | malformedKey (gotBytes : Nat)
  | credentialError (networkType : String)
  | missingSigner
deriving DecidableEq

/-- The message carried by a thrown error, as the source builds it (the
credentialError message is truncated after the network name). -/
def JsError.text : JsError → String
  | .raised m => m
  | .malformedMnemonic got =>
      "Invalid mnemonic: expected at least 12 words but got " ++ toString got
  | .mnemonicDerivation e =>
      "Failed to generate private key from mnemonic: " ++ e.text
  | .addressDerivation e =>
      "Failed to generate address from mnemonic: " ++ e.text
  | .malformedKey got =>
      "Invalid private key length: expected 32 bytes but got " ++ toString got
  | .credentialError nt => "No credentials found for " ++ nt
  | .missingSigner => "Either privateKey or mnemonic must be provided"

/-- TransactionSigner of contract-writer: a raw private key (byte list)
or a mnemonic (word list). -/
structure TransactionSigner where
  privateKey : Option (List Nat) := none
  mnemonic : Option (List String) := none
deriving DecidableEq

/-- The process environment variables read by the wallet-management code. -/
structure Env where
  MAINNET_MNEMONIC : Option String := none
  MAINNET_PRIVATE_KEY : Option String := none
  TESTNET_MNEMONIC : Option String := none
  TESTNET_PRIVATE_KEY : Option String := none
  MNEMONIC : Option String := none
  PRIVATE_KEY : Option String := none
  NETWORK : Option String := none
deriving DecidableEq

/-- JavaScript truthiness of an environment value: an unset variable and
the empty string are both falsy. -/
def truthy : Option String → Option String
  | none => none
  | some s => if s = "" then none else some s

/-- Split a character list on a separator character, with the JavaScript
split semantics: the empty list yields one empty field, and adjacent
separators yield empty fields. -/
def splitOnChar (sep : Char) : List Char → List (List Char)
  | [] => [[]]
  | x :: xs =>
    match splitOnChar sep xs with
    | [] => if x = sep then [[], []] else [[x]]
    | r :: rs => if x = sep then [] :: r :: rs else (x :: r) :: rs

/-- The word list of a mnemonic environment value: trim then split on a
single space, as the source does. -/
def jsWords (s : String) : List String :=
  (splitOnChar (Char.ofNat 32) (jsTrim s).data).map String.mk

/-- Value of one hexadecimal digit. -/
def hexDigitVal (c : Char) : Option Nat :=
  if 48 ≤ c.toNat ∧ c.toNat ≤ 57 then some (c.toNat - 48)
  else if 97 ≤ c.toNat ∧ c.toNat ≤ 102 then some (c.toNat - 87)
  else if 65 ≤ c.toNat ∧ c.toNat ≤ 70 then some (c.toNat - 55)
  else none

/-- Split a character list into chunks of at most two, as the source's
regular expression match with .{1,2} does. -/
def chunkPairs : List Char → List (List Char)
  | [] => []
  | [c] => [[c]]
  | c1 :: c2 :: rest => [c1, c2] :: chunkPairs rest

/-- parseInt(chunk, 16) followed by the Uint8Array coercion: the longest
hexadecimal prefix is parsed, and a NaN result (no hexadecimal prefix)
coerces to the byte 0. -/
def byteOfChunk (chunk : List Char) : Nat :=
  match chunk with
  | [] => 0
  | [c] => (hexDigitVal c).getD 0
  | c1 :: c2 :: _ =>
      match hexDigitVal c1 with
      | none => 0
      | some h1 =>
          match hexDigitVal c2 with
          | none => h1
          | some h2 => 16 * h1 + h2

/-- parsePrivateKey of env-loader: strip an optional 0x prefix, split into
two-character chunks, convert each with parseInt(chunk, 16) into a byte,
and fail unless exactly 32 bytes result. -/
def parsePrivateKey (privateKeyString : String) : Except JsError (List Nat) :=
  let pkHexData := match privateKeyString.data with
    | c1 :: c2 :: rest =>
        if c1 = Char.ofNat 48 ∧ c2 = Char.ofNat 120 then rest else privateKeyString.data
    | cs => cs
  let privateKeyBytes := (chunkPairs pkHexData).map byteOfChunk
  if privateKeyBytes.length ≠ 32 then .error (.malformedKey privateKeyBytes.length)
  else .ok privateKeyBytes

/-- Generic-credential fallback of createSignerFromEnv (the part after the
network-specific checks, textually inline in the source): generic mnemonic,
then generic private key, then a direct re-read of the mnemonic variable,
then the no-credentials throw. -/
def genericCredentials (env : Env) (networkType : String) :
    Except JsError (TransactionSigner × String) :=
  match truthy env.MNEMONIC with
  | some m => .ok ({ mnemonic := some (jsWords m) }, "generic mnemonic")
  | none =>
    match truthy env.PRIVATE_KEY with
    | some k =>
        (parsePrivateKey k).map (fun pk => ({ privateKey := some pk }, "generic private key"))
    | none =>
      match truthy env.MNEMONIC with
      | some m => .ok ({ mnemonic := some (jsWords m) }, "direct mnemonic")
      | none => .error (.credentialError networkType)

/-- createSignerFromEnv of env-loader: network-specific mnemonic, then
network-specific private key, then the generic fallback; any network
selector other than mainnet uses the testnet variables. -/
def createSignerFromEnv (env : Env) (networkType : String) :
    Except JsError (TransactionSigner × String) :=
  if networkType = "mainnet" then
    match truthy env.MAINNET_MNEMONIC with
    | some m => .ok ({ mnemonic := some (jsWords m) }, "mainnet mnemonic")
    | none =>
      match truthy env.MAINNET_PRIVATE_KEY with
      | some k =>
          (parsePrivateKey k).map (fun pk => ({ privateKey := some pk }, "mainnet private key"))
      | none => genericCredentials env networkType
  else
    match truthy env.TESTNET_MNEMONIC with
    | some m => .ok ({ mnemonic := some (jsWords m) }, "testnet mnemonic")
    | none =>
      match truthy env.TESTNET_PRIVATE_KEY with
      | some k =>
          (parsePrivateKey k).map (fun pk => ({ privateKey := some pk }, "testnet private key"))
      | none => genericCredentials env networkType

/-- The credential the specification's resolution order picks first.
Modelled from the specification's words (section 4.1) for the refinement
comparison with createSignerFromEnv. -/
inductive CredentialChoice where
  | netMnemonic (m : String)
  | netKey (k : String)
  | genMnemonic (m : String)
  | genKey (k : String)
  | absent
deriving DecidableEq

/-- First credential present, in the specification's order: network-specific
mnemonic, network-specific raw key, generic mnemonic, generic raw key. -/
def firstCredential (env : Env) (networkType : String) : CredentialChoice :=
  let netMnemonic := if networkType = "mainnet" then truthy env.MAINNET_MNEMONIC
                     else truthy env.TESTNET_MNEMONIC
  let netKey := if networkType = "mainnet" then truthy env.MAINNET_PRIVATE_KEY
                else truthy env.TESTNET_PRIVATE_KEY
  match netMnemonic with
  | some m => .netMnemonic m
  | none =>
    match netKey with
    | some k => .netKey k
    | none =>
      match truthy env.MNEMONIC with
      | some m => .genMnemonic m
      | none =>
        match truthy env.PRIVATE_KEY with
        | some k => .genKey k
        | none => .absent

/-- What resolving each credential choice yields: the signer built from the
first credential present, or the no-credentials failure. Modelled from the
specification's words for the refinement comparison with
createSignerFromEnv. -/
def resolveCredential (c : CredentialChoice) (networkType : String) :
    Except JsError (TransactionSigner × String) :=
  match c with
  | .netMnemonic m =>
      .ok ({ mnemonic := some (jsWords m) },
           if networkType = "mainnet" then "mainnet mnemonic" else "testnet mnemonic")
  | .netKey k =>
      (parsePrivateKey k).map (fun pk => ({ privateKey := some pk },
        if networkType = "mainnet" then "mainnet private key" else "testnet private key"))
  | .genMnemonic m => .ok ({ mnemonic := some (jsWords m) }, "generic mnemonic")
  | .genKey k =>
      (parsePrivateKey k).map (fun pk => ({ privateKey := some pk }, "generic private key"))
  | .absent => .error (.credentialError networkType)

/-- The external SDK's pure cryptographic operations. The embedding is
parametric in them: every theorem holds for any such pack of functions. -/
structure Sdk where
  mnemonicToPrivateKey : List String → List Nat
  addressOfPrivateKey : List Nat → String
  addressOfMnemonic : List String → String

/-- getPrivateKey of contract-writer: a raw key passes through; a mnemonic
is length-checked (the source tests emptiness and fewer than 12 words,
which is just fewer than 12) and derived, with derivation failures
rethrown under a wrapper message; no credential at all throws. -/
def getPrivateKey (sdk : Sdk) (signer : TransactionSigner) : Except JsError (List Nat) :=
  match signer.privateKey with
  | some pk => .ok pk
  | none =>
    match signer.mnemonic with
    | some words =>
        if words.length < 12 then
          .error (.mnemonicDerivation (.malformedMnemonic words.length))
        else .ok (sdk.mnemonicToPrivateKey words)
    | none => .error .missingSigner

/-- getWalletAddress of contract-writer: same structure as getPrivateKey,
computing the address instead. -/
def getWalletAddress (sdk : Sdk) (signer : TransactionSigner) : Except JsError String :=
  match signer.privateKey with
  | some pk => .ok (sdk.addressOfPrivateKey pk)
  | none =>
    match signer.mnemonic with
    | some words =>
        if words.length < 12 then
          .error (.addressDerivation (.malformedMnemonic words.length))
        else .ok (sdk.addressOfMnemonic words)
    | none => .error .missingSigner

/-- A decoded function-call parameter as handed to the SDK's
Clause.callFunction. -/
inductive CallParam where
  | str (s : String)
  | int (n : ℤ)
  | addressList (addrs : List String)
deriving DecidableEq

/-- Model of a transaction clause built by buildTransactionClause of
contract-writer: the target contract, the called function name and its
decoded parameters stand in for the ABI-encoded call data (the ABI lookup
and encoding are the external SDK's concern). -/
structure TransactionClause where
  «to» : String
  functionName : String
  params : List CallParam
  value : Option ℚ := none
deriving DecidableEq

/-- buildTransactionClause of contract-writer. -/
def buildTransactionClause (contractAddress : String) (functionName : String)
    (params : List CallParam) (value : Option ℚ) : TransactionClause :=
  { «to» := contractAddress, functionName := functionName, params := params, value := value }

/-- TransactionExecutionOptions: the TransactionBodyOptions fields the
repository passes (the unused blockRef, chainTag, dependsOn and nonce
options are omitted) plus waitForReceipt. -/
structure TransactionExecutionOptions where
  expiration : Option Nat := none
  gas : Option Nat := none
  gasPriceCoef : Option Nat := none
  waitForReceipt : Option Bool := none
deriving DecidableEq

/-- A transaction receipt as waitForTransaction returns it; reverted is the
on-chain success/revert status. -/
structure Receipt where
  reverted : Bool
  gasUsed : Nat
deriving DecidableEq

/-- The chain context the SDK's buildTransactionBody fetches (block anchor,
chain tag, fresh nonce). -/
structure ChainContext where
  blockRef : String
  chainTag : Nat
  nonce : Nat
deriving DecidableEq

/-- The assembled transaction body. -/
structure TransactionBody where
  clauses : List TransactionClause
  gas : Nat
  expiration : Nat
  gasPriceCoef : Nat
  blockRef : String
  chainTag : Nat
  nonce : Nat
deriving DecidableEq

/-- A signed transaction as produced by Transaction.of(txBody).sign(key):
the model keeps the signing inputs, the signature bytes themselves being
the external SDK's concern. -/
structure SignedTx where
  body : TransactionBody
  signerKey : List Nat
deriving DecidableEq

/-- One run's responses from the Thor network endpoints the pipeline
awaits; an Except.error means the awaited promise rejects. -/
structure ThorNode where
  estimateGas : List TransactionClause → Except JsError Nat
  chainContext : Except JsError ChainContext
  sendTransaction : SignedTx → Except JsError String
  waitForTransaction : String → Except JsError Receipt

/-- Model of the SDK's thorClient.transactions.buildTransactionBody: the
body holds exactly the given clauses; the options' own gas field, when
present, takes precedence over the estimated figure (TransactionBodyOptions
documents the gas override), and expiration and gasPriceCoef fall back to
the SDK defaults when the options leave them unset. -/
def sdkAssembleBody (clauses : List TransactionClause) (gas : Nat)
    (options : TransactionExecutionOptions) (ctx : ChainContext) : TransactionBody :=
  { clauses := clauses
    gas := options.gas.getD gas
    expiration := options.expiration.getD 32
    gasPriceCoef := options.gasPriceCoef.getD 0
    blockRef := ctx.blockRef
    chainTag := ctx.chainTag
    nonce := ctx.nonce }

/-- An external call the pipeline performed, recorded in order. -/
inductive PipelineEvent where
  | estimateGasCall (clauses : List TransactionClause)
  | broadcast (clauses : List TransactionClause) (txId : String)
  | awaitReceipt (txId : String)
deriving DecidableEq

/-- buildTransaction of contract-writer: always estimates gas for the
clauses first, then has the SDK build the body from the clauses, the
estimated total gas and the options. -/
def buildTransaction (node : ThorNode) (clauses : List TransactionClause)
    (options : TransactionExecutionOptions) :
    Except JsError TransactionBody × List PipelineEvent :=
  match node.estimateGas clauses with
  | .error e => (.error e, [.estimateGasCall clauses])
  | .ok totalGas =>
    match node.chainContext with
    | .error e => (.error e, [.estimateGasCall clauses])
    | .ok ctx => (.ok (sdkAssembleBody clauses totalGas options ctx), [.estimateGasCall clauses])

/-- signTransaction of contract-writer: pure signing through the SDK. -/
def signTransaction (txBody : TransactionBody) (privateKey : List Nat) : SignedTx :=
  { body := txBody, signerKey := privateKey }

/-- What executeTransaction returns on success: only the transaction id
and, when awaited, the receipt — the source record has no success flag. -/
structure ExecTxResult where
  transactionId : String
  receipt : Option Receipt := none
deriving DecidableEq

/-- The option merge at the top of executeTransaction: spread the caller's
options over the defaults expiration 32 blocks and gas price coefficient
127. -/
def mergeExecutionOptions (options : TransactionExecutionOptions) :
    TransactionExecutionOptions :=
  { options with
    expiration := some (options.expiration.getD 32)
    gasPriceCoef := some (options.gasPriceCoef.getD 127) }

/-- executeTransaction of contract-writer: merge the default options,
resolve the private key, build (estimating gas), sign, send, and optionally
await the receipt (the merge leaves waitForReceipt unchanged, so the flag
is read off the caller's options directly). The source has no try/catch
here: any step's failure is a rejection that propagates to the caller,
recorded as Except.error. -/
def executeTransaction (sdk : Sdk) (node : ThorNode) (clauses : List TransactionClause)
    (signer : TransactionSigner) (options : TransactionExecutionOptions) :
    Except JsError ExecTxResult × List PipelineEvent :=
  match getPrivateKey sdk signer with
  | .error e => (.error e, [])
  | .ok privateKey =>
    match buildTransaction node clauses (mergeExecutionOptions options) with
    | (.error e, evs) => (.error e, evs)
    | (.ok txBody, evs) =>
      match node.sendTransaction (signTransaction txBody privateKey) with
      | .error e => (.error e, evs)
      | .ok txId =>
        if options.waitForReceipt.getD true then
          match node.waitForTransaction txId with
          | .error e => (.error e, evs ++ [.broadcast clauses txId])
          | .ok receipt =>
              (.ok { transactionId := txId, receipt := some receipt },
               evs ++ [.broadcast clauses txId, .awaitReceipt txId])
        else (.ok { transactionId := txId }, evs ++ [.broadcast clauses txId])

/-- A decoded value of a contract read as the scripts see it: a decimal
string or a native bigint. -/
inductive ChainValue where
  | str (s : String)
  | big (n : ℤ)
deriving DecidableEq

/-- The decoded result of a callPlain read: a single value or an array. -/
inductive CallResult where
  | single (v : ChainValue)
  | arr (vs : List ChainValue)
deriving DecidableEq

/-- PriceRatio of market-data. The fields are JavaScript numbers: the
source computes them with floating-point division, which the model keeps
exact except for NaN and infinity. -/
structure PriceRatio where
  inputVTHO : JsNumber
  outputVET : JsNumber
  vetPerVtho : JsNumber
  vthoPerVet : JsNumber
deriving DecidableEq

/-- The all-zero PriceRatio the quote service falls back to. -/
def zeroRatio : PriceRatio :=
  { inputVTHO := .num 0, outputVET := .num 0, vetPerVtho := .num 0, vthoPerVet := .num 0 }

/-- One entry of the decoded amounts array, read the way the source does:
a string goes through BigInt (which can throw, the error case), a bigint
passes through, and a missing entry stays undefined (ok none) because the
typeof test routes it around the conversion. -/
def amountEntry : Option ChainValue → Except Unit (Option ℤ)
  | none => .ok none
  | some (.str s) =>
      match jsBigIntOfString s with
      | none => .error ()
      | some n => .ok (some n)
  | some (.big n) => .ok (some n)

/-- Number(x) / 1e18 for a possibly undefined bigint: undefined gives NaN. -/
def formattedAmount : Option ℤ → JsNumber
  | none => .nan
  | some n => .num ((n : ℚ) / 10 ^ 18)

/-- getVETVTHORatio of market-data, as a function of the outcome of the
router's getAmountsOut read: on a rejected read or a thrown conversion the
catch returns the zeroed ratio; otherwise the two leading entries are
decoded and the two directional ratios computed. -/
def getVETVTHORatio (readResult : Except JsError CallResult) : PriceRatio :=
  match readResult with
  | .error _ => zeroRatio
  | .ok amounts =>
    let amountsArray := match amounts with
      | .single v => [v]
      | .arr vs => vs
    match amountEntry amountsArray[0]?, amountEntry amountsArray[1]? with
    | .error _, _ => zeroRatio
    | _, .error _ => zeroRatio
    | .ok inputAmount, .ok outputAmount =>
      let formattedInputAmount := formattedAmount inputAmount
      let formattedOutputAmount := formattedAmount outputAmount
      let vetPerVtho := jsDiv formattedOutputAmount formattedInputAmount
      let vthoPerVet := jsDiv (.num 1) vetPerVtho
      { inputVTHO := formattedInputAmount
        outputVET := formattedOutputAmount
        vetPerVtho := vetPerVtho
        vthoPerVet := vthoPerVet }

/-- DEX router address of market-data. -/
def DEX_ROUTER_ADDRESS : String := "0x91e42759290239a62ac757cf85bb5b74ace57927"

/-- Wrapped VET token address of market-data. -/
def vVET_ADDRESS : String := "0x86fb5343bbecffc86185c023a2a6ccc76fc0afd8"

/-- Fixed trade size of market-data: 10 VTHO in 18-decimal base units. -/
def TRADE_AMOUNT_VTHO : String := "10000000000000000000"

/-- VTHO token address (the constant imported from the SDK). -/
def VTHO_ADDRESS : String := "0x0000000000000000000000000000456E65726779"

/-- The uint256 maximum the approval submits to avoid repeated approvals. -/
def approveAmountMax : String :=
  "115792089237316195423570985008687907853269984665640564039457584007913129639935"

/-- TradeExecutionResult of trade-executor (the unused details field is
omitted). -/
structure TradeExecutionResult where
  success : Bool
  transactionId : Option String := none
  receipt : Option Receipt := none
  error : Option String := none
deriving DecidableEq

/-- TokenApprovalResult of erc20-approve. -/
structure TokenApprovalResult where
  success : Bool
  approved : Bool
  transactionId : Option String := none
  error : Option String := none
  allowance : Option String := none
  spender : Option String := none
deriving DecidableEq

/-- One run's external world for the trading modules: the process
environment, the SDK's pure cryptography, the Thor node endpoints, the
router's getAmountsOut read, the token's allowance read (owner, spender)
and the wall-clock time Date.now() in milliseconds. -/
structure World where
  env : Env
  sdk : Sdk
  node : ThorNode
  getAmountsOut : String → List String → Except JsError CallResult
  allowance : String → String → Except JsError ChainValue
  nowMillis : Nat

/-- Math.floor on an exact rational: the floor written as integer division
of numerator by denominator (the denominator is positive, so euclidean
division is the floor; the theorem ratFloor_eq_floor identifies it with the
mathematical floor). -/
def ratFloor (q : ℚ) : ℤ := q.num / (q.den : ℤ)

/-- The expected-output amount in base units: BigInt(Math.floor(outputVET
times 1e18)) for an ordinary number. -/
def outputAmountWeiOf (outputVET : ℚ) : ℤ := ratFloor (outputVET * 10 ^ 18)

/-- The slippage-bounded minimum output of executeVTHOtoVETSwap,
slippageFactor = 1 - slippageTolerance / 100 and minOutput =
BigInt(Math.floor(Number(outputAmount) * slippageFactor)), idealized over
exact rationals. The source evaluates this in binary64 floating point;
the idealization coincides with the program wherever the double
arithmetic is exact, which holds at the concrete quotes the claims about
the executor exercise (output 8 x 10^18 and 100 at 5 percent), while
dblMinOutputOfWei below models the double rounding itself. -/
def minOutputOfWei (outputAmountWei : ℤ) (slippageTolerance : ℚ) : ℤ :=
  ratFloor ((outputAmountWei : ℚ) * (1 - slippageTolerance / 100))

/-- Binary digit count of a natural number (fuel-based structural
recursion so that the kernel can evaluate it; the fuel n covers the
recursion depth for every n). -/
def bitsAux : Nat → Nat → Nat
  | 0, _ => 0
  | _ + 1, 0 => 0
  | fuel + 1, n + 1 => bitsAux fuel ((n + 1) / 2) + 1

/-- Binary digit count: bits 0 = 0 and bits n = floor(log2 n) + 1. -/
def bits (n : Nat) : Nat := bitsAux n n

/-- Round the nonnegative fraction a / b to the nearest integer, ties to
even (b positive). -/
def rne (a b : Nat) : Nat :=
  let q := a / b
  let r := a % b
  if 2 * r < b then q
  else if b < 2 * r then q + 1
  else if q % 2 = 0 then q else q + 1

/-- floor(log2 (a / b)) for positive a and b, from the digit counts and
one comparison. -/
def floorLog2 (a b : Nat) : ℤ :=
  let d : ℤ := (bits a : ℤ) - (bits b : ℤ)
  if 0 ≤ d then (if b * 2 ^ d.toNat ≤ a then d else d - 1)
  else (if b ≤ a * 2 ^ (-d).toNat then d else d - 1)

/-- A binary64 value modelled exactly: a nonnegative significand times a
power of two (sig 2^exp); rounding produces a 53-bit significand. The
finite nonnegative range is the one the executor's computation exercises. -/
structure Dbl where
  sig : Nat
  exp : ℤ
deriving DecidableEq

/-- Round the nonnegative rational a / b (b positive) to the nearest
binary64 value, round to nearest with ties to even: the unit in the last
place is 2^(floor(log2 (a / b)) - 52) and the significand is the nearest
(ties-to-even) multiple. Zero rounds to zero. -/
def roundPos (a b : Nat) : Dbl :=
  let e := floorLog2 a b
  let k := e - 52
  if 0 ≤ k then { sig := rne a (b * 2 ^ k.toNat), exp := k }
  else { sig := rne (a * 2 ^ (-k).toNat) b, exp := k }

/-- Correctly rounded binary64 product: multiply the exact values, then
round. -/
def dmul (x y : Dbl) : Dbl :=
  let r := roundPos (x.sig * y.sig) 1
  { sig := r.sig, exp := r.exp + x.exp + y.exp }

/-- Correctly rounded binary64 evaluation of 1 - y for 0 ≤ y ≤ 1 (the
slippage-factor domain the claim exercises): the exact difference is a
dyadic rational, rounded like any other value; outside that domain the
model clamps to zero, a case no embedded run reaches. -/
def dOneMinus (y : Dbl) : Dbl :=
  if 0 ≤ -y.exp then
    let p := 2 ^ (-y.exp).toNat
    if y.sig ≤ p then roundPos (p - y.sig) p else { sig := 0, exp := 0 }
  else { sig := 0, exp := 0 }

/-- Math.floor of a nonnegative binary64 value, exactly. -/
def dfloor (x : Dbl) : Nat :=
  if 0 ≤ x.exp then x.sig * 2 ^ x.exp.toNat else x.sig / 2 ^ (-x.exp).toNat

/-- Binary64 evaluation of the swap executor's minimum-output computation
BigInt(Math.floor(Number(outputAmount) * (1 - slippageTolerance / 100))):
the division by 100, the subtraction from 1, the bigint-to-number
conversion and the product are each correctly rounded to double precision
(round to nearest, ties to even), and the final floor and BigInt
conversion are exact - the faithful counterpart of the idealized
minOutputOfWei, for integer percentage tolerances. -/
def dblMinOutputOfWei (outputAmountWei : Nat) (slippageTolerance : Nat) : Nat :=
  let slippageFactor := dOneMinus (roundPos slippageTolerance 100)
  dfloor (dmul (roundPos outputAmountWei 1) slippageFactor)

/-- Multiplication of a JavaScript number by 1e18, as in outputVET * 1e18. -/
def jsMulPow18 : JsNumber → JsNumber
  | .num q => .num (q * 10 ^ 18)
  | .nan => .nan
  | .inf s => .inf s

/-- Math.floor then BigInt for a JavaScript number: NaN and infinity make
the BigInt conversion throw (a RangeError in the engine). -/
def jsFloorBigInt : JsNumber → Except JsError ℤ
  | .num q => .ok (ratFloor q)
  | .nan => .error (.raised "The number NaN cannot be converted to a BigInt because it is not an integer")
  | .inf _ => .error (.raised "The number Infinity cannot be converted to a BigInt because it is not an integer")

/-- The placeholder ratio executeVTHOtoVETSwap builds when the caller did
not supply one, as a function of the decoded second amounts entry. -/
def placeholderRatio (tradeAmountWei : ℤ) (outputAmount : Option ℤ) : PriceRatio :=
  let inputVTHO : JsNumber := .num ((tradeAmountWei : ℚ) / 10 ^ 18)
  let outputVET := formattedAmount outputAmount
  { inputVTHO := inputVTHO
    outputVET := outputVET
    vetPerVtho := jsDiv outputVET inputVTHO
    vthoPerVet := jsDiv inputVTHO outputVET }

/-- The swap clause executeVTHOtoVETSwap builds: a swapExactTokensForETH
call on the router with the trade amount, the minimum output rendered as a
decimal string, the two-hop path, the recipient wallet and the deadline. -/
def swapClauseOf (minOutput : ℤ) (walletAddress : String) (deadline : ℤ) : TransactionClause :=
  buildTransactionClause DEX_ROUTER_ADDRESS "swapExactTokensForETH"
    [.str TRADE_AMOUNT_VTHO, .str (toString minOutput),
     .addressList [VTHO_ADDRESS, vVET_ADDRESS], .str walletAddress, .int deadline]
    none

/-- The swap body of executeVTHOtoVETSwap after the signer, wallet address
and ratio have been obtained: compute the slippage-bounded minimum output,
build the swap clause and drive it through the pipeline with fixed gas
300000 and zero gas-price coefficient; a pipeline rejection is caught into
a failed result, and a fulfilled pipeline is reported as success with the
receipt passed through unread. -/
def swapWithRatio (w : World) (signer : TransactionSigner) (walletAddress : String)
    (slippageTolerance : ℚ) (ratio : PriceRatio) :
    TradeExecutionResult × List PipelineEvent :=
  match jsFloorBigInt (jsMulPow18 ratio.outputVET) with
  | .error e => ({ success := false, error := some e.text }, [])
  | .ok outputAmount =>
    match executeTransaction w.sdk w.node
        [swapClauseOf (minOutputOfWei outputAmount slippageTolerance) walletAddress
          ((w.nowMillis / 1000 : Nat) + 300)] signer
        { waitForReceipt := some true, gas := some 300000, gasPriceCoef := some 0 } with
    | (.error e, evs) => ({ success := false, error := some e.text }, evs)
    | (.ok result, evs) =>
        ({ success := true, transactionId := some result.transactionId,
           receipt := result.receipt }, evs)

/-- executeVTHOtoVETSwap of trade-executor: resolve the signer (throwing
resolutions and the explicit credential check both yield failed results),
compute the wallet address, take the supplied ratio or read one from the
router, then run the swap body; every rejection inside the try block is
caught into a failed result with the error's message. -/
def executeVTHOtoVETSwap (w : World) (slippageTolerance : ℚ)
    (expectedRatio : Option PriceRatio) : TradeExecutionResult × List PipelineEvent :=
  match createSignerFromEnv w.env ((truthy w.env.NETWORK).getD "testnet") with
  | .error e => ({ success := false, error := some e.text }, [])
  | .ok (signer, _source) =>
    if signer.mnemonic = none ∧ signer.privateKey = none then
      ({ success := false, error := some "No valid signer credentials found in environment" }, [])
    else
      match getWalletAddress w.sdk signer with
      | .error e => ({ success := false, error := some e.text }, [])
      | .ok walletAddress =>
        match expectedRatio with
        | some ratio => swapWithRatio w signer walletAddress slippageTolerance ratio
        | none =>
          match jsBigIntOfString TRADE_AMOUNT_VTHO with
          | none => ({ success := false, error := some "Cannot convert the string to a BigInt" }, [])
          | some tradeAmountWei =>
            match w.getAmountsOut TRADE_AMOUNT_VTHO [VTHO_ADDRESS, vVET_ADDRESS] with
            | .error e => ({ success := false, error := some e.text }, [])
            | .ok amounts =>
              let amountsArray := match amounts with
                | .single v => [v]
                | .arr vs => vs
              match amountEntry amountsArray[1]? with
              | .error _ =>
                  ({ success := false, error := some "Cannot convert the string to a BigInt" }, [])
              | .ok outputAmount =>
                  swapWithRatio w signer walletAddress slippageTolerance
                    (placeholderRatio tradeAmountWei outputAmount)

/-- The bigint value of a decoded allowance read: a string goes through
BigInt (which can throw, the none case), a native bigint passes through. -/
def chainValueBigInt : ChainValue → Option ℤ
  | .str s => jsBigIntOfString s
  | .big n => some n

/-- The approve clause checkAndApproveTokenAllowance builds: an approve
call for the spender over the maximal uint256 amount. -/
def approveClauseOf (tokenAddress spenderAddress : String) : TransactionClause :=
  buildTransactionClause tokenAddress "approve"
    [.str spenderAddress, .str approveAmountMax] none

/-- checkAndApproveTokenAllowance of erc20-approve: resolve the signer and
wallet address, read the current allowance (read failures and conversion
throws are caught into a failed result), return success without any
submission when the allowance already covers the required amount, and
otherwise submit a maximal approval through the pipeline with fixed gas
100000 and zero gas-price coefficient; a rejected submission is caught into
a failed result, and signer-resolution throws land in the outermost catch. -/
def checkAndApproveTokenAllowance (w : World) (tokenAddress spenderAddress : String)
    (requiredAmount : String) (network : String) :
    TokenApprovalResult × List PipelineEvent :=
  match createSignerFromEnv w.env network with
  | .error e =>
      ({ success := false, approved := false,
         error := some ("Unexpected error: " ++ e.text), spender := some spenderAddress }, [])
  | .ok (signer, _source) =>
    if signer.mnemonic = none ∧ signer.privateKey = none then
      ({ success := false, approved := false,
         error := some "No valid signer credentials found in environment" }, [])
    else
      match getWalletAddress w.sdk signer with
      | .error e =>
          ({ success := false, approved := false,
             error := some ("Unexpected error: " ++ e.text), spender := some spenderAddress }, [])
      | .ok walletAddress =>
        match w.allowance walletAddress spenderAddress with
        | .error e =>
            ({ success := false, approved := false,
               error := some ("Failed to check allowance: " ++ e.text),
               spender := some spenderAddress }, [])
        | .ok allowanceValue =>
          match chainValueBigInt allowanceValue with
          | none =>
              ({ success := false, approved := false,
                 error := some ("Failed to check allowance: " ++
                   "Cannot convert the string to a BigInt"),
                 spender := some spenderAddress }, [])
          | some allowanceInt =>
            match jsBigIntOfString requiredAmount with
            | none =>
              ({ success := false, approved := false,
                 error := some ("Failed to check allowance: " ++
                   "Cannot convert the string to a BigInt"),
                 spender := some spenderAddress }, [])
            | some requiredInt =>
            if requiredInt ≤ allowanceInt then
              ({ success := true, approved := true,
                 allowance := some (toString allowanceInt),
                 spender := some spenderAddress }, [])
            else
              match executeTransaction w.sdk w.node [approveClauseOf tokenAddress spenderAddress] signer
                  { waitForReceipt := some true, gas := some 100000, gasPriceCoef := some 0 } with
              | (.error e, evs) =>
                  ({ success := false, approved := false,
                     error := some ("Approval transaction failed: " ++ e.text),
                     spender := some spenderAddress }, evs)
              | (.ok result, evs) =>
                  ({ success := true, approved := true,
                     transactionId := some result.transactionId,
                     spender := some spenderAddress }, evs)

/-- checkAndApproveVTHOAllowance of erc20-approve: the VTHO instance. -/
def checkAndApproveVTHOAllowance (w : World) (spenderAddress : String)
    (requiredAmount : String) (network : String) :
    TokenApprovalResult × List PipelineEvent :=
  checkAndApproveTokenAllowance w VTHO_ADDRESS spenderAddress requiredAmount network

/-- executeTrade of trade-executor, the complete trade flow: run the
allowance orchestration for the router over the exact trade amount; when it
reports failure, stop with a failed result carrying the approval's error,
and otherwise proceed to the swap step. -/
def executeTrade (w : World) (slippageTolerance : ℚ) (expectedRatio : Option PriceRatio) :
    TradeExecutionResult × List PipelineEvent :=
  match checkAndApproveVTHOAllowance w DEX_ROUTER_ADDRESS TRADE_AMOUNT_VTHO
      ((truthy w.env.NETWORK).getD "testnet") with
  | (approvalResult, approvalEvents) =>
    if approvalResult.success = false then
      ({ success := false,
         error := some ("Approval failed: " ++ jsInterp approvalResult.error) }, approvalEvents)
    else
      match executeVTHOtoVETSwap w slippageTolerance expectedRatio with
      | (result, swapEvents) => (result, approvalEvents ++ swapEvents)

/-- A concrete SDK instantiation for closed witnesses (any pack works; the
theorems are parametric in it). -/
def sdkEx : Sdk :=
  { mnemonicToPrivateKey := fun words => List.replicate 32 words.length
    addressOfPrivateKey := fun pk => "0xaddr-of-key-" ++ toString pk.length
    addressOfMnemonic := fun words => "0xaddr-of-mnemonic-" ++ toString words.length }

/-- A node whose every endpoint succeeds. -/
def nodeOk : ThorNode :=
  { estimateGas := fun _ => .ok 21000
    chainContext := .ok { blockRef := "0x00b1", chainTag := 39, nonce := 7 }
    sendTransaction := fun _ => .ok "0xtx1"
    waitForTransaction := fun _ => .ok { reverted := false, gasUsed := 36582 } }

/-- A node that confirms the transaction with a reverted receipt (the
on-chain execution failed, for example on an unmet minimum output). -/
def nodeRevertedReceipt : ThorNode :=
  { nodeOk with waitForTransaction := fun _ => .ok { reverted := true, gasUsed := 300000 } }

/-- A node whose gas estimation rejects. -/
def nodeEstimateFails : ThorNode :=
  { nodeOk with estimateGas := fun _ => .error (.raised "estimation reverted") }

/-- A twelve-word mnemonic fixture. -/
def mnemonic12 : List String :=
  ["alpha", "bravo", "charlie", "delta", "echo", "foxtrot",
   "golf", "hotel", "india", "juliet", "kilo", "lima"]

/-- An environment holding the twelve-word generic mnemonic. -/
def envMnemonic12 : Env :=
  { MNEMONIC := some "alpha bravo charlie delta echo foxtrot golf hotel india juliet kilo lima" }

/-- A raw-key signer fixture. -/
def signerKeyEx : TransactionSigner := { privateKey := some (List.replicate 32 1) }

/-- A world with valid credentials, a working node, and a zero current
allowance (so an approval submission is required). -/
def worldOk : World :=
  { env := envMnemonic12
    sdk := sdkEx
    node := nodeOk
    getAmountsOut := fun _ _ => .ok (.arr [.str TRADE_AMOUNT_VTHO, .big 800000000000000000])
    allowance := fun _ _ => .ok (.big 0)
    nowMillis := 1700000000000 }

/-- A world with no credentials at all. -/
def worldNoCreds : World :=
  { worldOk with env := {} }

/-- The working world whose receipt reports an on-chain revert. -/
def worldReverted : World :=
  { worldOk with node := nodeRevertedReceipt }

/-- The working world whose current allowance already covers the trade
amount. -/
def worldAllowanceHigh : World :=
  { worldOk with allowance := fun _ _ => .ok (.big 10000000000000000000) }

/-- The specification's end-to-end quote fixture: 100 VTHO in, 8 VET out. -/
def ratio100to8 : PriceRatio :=
  { inputVTHO := .num 100, outputVET := .num 8,
    vetPerVtho := .num (2 / 25), vthoPerVet := .num (25 / 2) }

/-! Helper lemmas shared by several claims. -/

/-- buildTransaction always records exactly one gas-estimation call for
its clauses, whatever the node answers. -/
theorem buildTransaction_events (node : ThorNode) (clauses : List TransactionClause)
    (options : TransactionExecutionOptions) :
    (buildTransaction node clauses options).snd = [.estimateGasCall clauses] := by
  unfold buildTransaction
  repeat' split
  all_goals rfl

/-- Every broadcast event recorded by executeTransaction broadcasts exactly
the clauses the pipeline was called with. -/
theorem executeTransaction_broadcast_clauses (sdk : Sdk) (node : ThorNode)
    (clauses : List TransactionClause) (signer : TransactionSigner)
    (options : TransactionExecutionOptions) (cl : List TransactionClause) (txId : String) :
    PipelineEvent.broadcast cl txId ∈ (executeTransaction sdk node clauses signer options).snd →
    cl = clauses := by
  intro h
  unfold executeTransaction at h
  split at h
  · simp at h
  · split at h
    case _ e evs heq =>
      have hevs : evs = [PipelineEvent.estimateGasCall clauses] := by
        have h2 := congrArg Prod.snd heq
        rw [buildTransaction_events] at h2
        exact h2.symm
      subst hevs
      simp at h
    case _ txBody evs heq =>
      have hevs : evs = [PipelineEvent.estimateGasCall clauses] := by
        have h2 := congrArg Prod.snd heq
        rw [buildTransaction_events] at h2
        exact h2.symm
      subst hevs
      repeat' split at h
      all_goals simp_all

/-- Every broadcast event of the allowance orchestrator broadcasts the
single maximal approve clause for the token and spender — never anything
else, in particular never a swap clause. -/
theorem checkAndApprove_broadcast_clauses (w : World) (tokenAddress spenderAddress : String)
    (requiredAmount network : String) (cl : List TransactionClause) (txId : String) :
    PipelineEvent.broadcast cl txId ∈
      (checkAndApproveTokenAllowance w tokenAddress spenderAddress requiredAmount network).snd →
    cl = [approveClauseOf tokenAddress spenderAddress] := by
  intro h
  unfold checkAndApproveTokenAllowance at h
  split at h
  · simp at h
  · split at h
    · simp at h
    · split at h
      · simp at h
      · split at h
        · simp at h
        · split at h
          · simp at h
          · split at h
            · simp at h
            · split at h
              · simp at h
              · split at h
                case _ x evs heq =>
                  have h2 := congrArg Prod.snd heq
                  exact executeTransaction_broadcast_clauses _ _ _ _ _ _ _ (by rw [h2]; exact h)
                case _ x evs heq =>
                  have h2 := congrArg Prod.snd heq
                  exact executeTransaction_broadcast_clauses _ _ _ _ _ _ _ (by rw [h2]; exact h)

/-- C1: for every execution of the complete trade flow, if the
allowance-orchestration step returns an unsuccessful result, the combined
result is unsuccessful and carries the approval step's error, the combined
trace is exactly the approval step's trace (the swap step contributes
nothing, so it was never invoked), and every broadcast in that trace is of
the approve clause only — no swap transaction is broadcast. -/
theorem executeTrade_approval_failure_skips_swap (w : World) (slippageTolerance : ℚ)
    (expectedRatio : Option PriceRatio)
    (h : (checkAndApproveVTHOAllowance w DEX_ROUTER_ADDRESS TRADE_AMOUNT_VTHO
        ((truthy w.env.NETWORK).getD "testnet")).fst.success = false) :
    executeTrade w slippageTolerance expectedRatio =
      ({ success := false,
         error := some ("Approval failed: " ++ jsInterp
           (checkAndApproveVTHOAllowance w DEX_ROUTER_ADDRESS TRADE_AMOUNT_VTHO
             ((truthy w.env.NETWORK).getD "testnet")).fst.error) },
       (checkAndApproveVTHOAllowance w DEX_ROUTER_ADDRESS TRADE_AMOUNT_VTHO
         ((truthy w.env.NETWORK).getD "testnet")).snd) ∧
    ∀ cl txId,
      PipelineEvent.broadcast cl txId ∈ (executeTrade w slippageTolerance expectedRatio).snd →
      ∀ c ∈ cl, c.functionName = "approve" := by
  have hEq : executeTrade w slippageTolerance expectedRatio =
      ({ success := false,
         error := some ("Approval failed: " ++ jsInterp
           (checkAndApproveVTHOAllowance w DEX_ROUTER_ADDRESS TRADE_AMOUNT_VTHO
             ((truthy w.env.NETWORK).getD "testnet")).fst.error) },
       (checkAndApproveVTHOAllowance w DEX_ROUTER_ADDRESS TRADE_AMOUNT_VTHO
         ((truthy w.env.NETWORK).getD "testnet")).snd) := by
    unfold executeTrade
    split
    case _ approvalResult approvalEvents heq =>
      have hfst := congrArg Prod.fst heq
      have hsnd := congrArg Prod.snd heq
      rw [hfst] at h
      rw [if_pos h, hfst, hsnd]
  refine ⟨hEq, ?_⟩
  intro cl txId hmem c hc
  rw [hEq] at hmem
  have hcl := checkAndApprove_broadcast_clauses w VTHO_ADDRESS DEX_ROUTER_ADDRESS
    TRADE_AMOUNT_VTHO ((truthy w.env.NETWORK).getD "testnet") cl txId hmem
  rw [hcl] at hc
  simp at hc
  rw [hc]
  rfl

/-- C1 witness: in a concrete world with no credentials the approval step
fails, and the trade flow returns its error with an empty trace. -/
theorem executeTrade_approval_failure_skips_swap_witness :
    (checkAndApproveVTHOAllowance worldNoCreds DEX_ROUTER_ADDRESS TRADE_AMOUNT_VTHO
        ((truthy worldNoCreds.env.NETWORK).getD "testnet")).fst.success = false ∧
    executeTrade worldNoCreds 5 none =
      ({ success := false,
         error := some "Approval failed: Unexpected error: No credentials found for testnet" },
       []) :=
  ⟨by decide, by
    have h := (executeTrade_approval_failure_skips_swap worldNoCreds 5 none (by decide)).1
    rw [h]
    decide⟩

/-- ratFloor is the mathematical floor (rational arithmetic is not kernel
reducible through the library's instances, so concrete floors are evaluated
through this lemma and norm_num). -/
theorem ratFloor_eq_floor (q : ℚ) : ratFloor q = ⌊q⌋ :=
  Rat.floor_def.symm

/-- Evaluation of the expected-output amount for the 8 VET quote. -/
theorem ratFloor_8e18 : ratFloor ((8 : ℚ) * 10 ^ 18) = 8000000000000000000 := by
  rw [ratFloor_eq_floor,
    show ((8 : ℚ) * 10 ^ 18) = ((8000000000000000000 : ℤ) : ℚ) by push_cast; norm_num]
  exact Int.floor_intCast _

/-- Evaluation of the minimum output for the 8 VET quote at 5 percent. -/
theorem minOutput_8e18_5 : minOutputOfWei 8000000000000000000 5 = 7600000000000000000 := by
  rw [minOutputOfWei, ratFloor_eq_floor,
    show ((8000000000000000000 : ℤ) : ℚ) * (1 - 5 / 100) = ((7600000000000000000 : ℤ) : ℚ) by
      push_cast; norm_num]
  exact Int.floor_intCast _

/-- Computation of the swap executor on a supplied ratio with an ordinary
output number, as a function of the pipeline outcome. -/
theorem swap_run_with_ratio (w : World) (slippageTolerance : ℚ) (ratio : PriceRatio)
    (q : ℚ) (signer : TransactionSigner) (source walletAddress : String)
    (h1 : createSignerFromEnv w.env ((truthy w.env.NETWORK).getD "testnet") =
      .ok (signer, source))
    (h2 : ¬(signer.mnemonic = none ∧ signer.privateKey = none))
    (h3 : getWalletAddress w.sdk signer = .ok walletAddress)
    (h4 : ratio.outputVET = .num q) :
    executeVTHOtoVETSwap w slippageTolerance (some ratio) =
      match executeTransaction w.sdk w.node
          [swapClauseOf (minOutputOfWei (ratFloor (q * 10 ^ 18)) slippageTolerance)
            walletAddress ((w.nowMillis / 1000 : Nat) + 300)] signer
          { waitForReceipt := some true, gas := some 300000, gasPriceCoef := some 0 } with
      | (.error e, evs) => ({ success := false, error := some e.text }, evs)
      | (.ok result, evs) =>
          ({ success := true, transactionId := some result.transactionId,
             receipt := result.receipt }, evs) := by
  unfold executeVTHOtoVETSwap swapWithRatio
  rw [h1]
  dsimp only
  rw [if_neg h2, h3]
  dsimp only
  rw [h4]
  rfl

/-- C2 (evaluated at the failing input): in a run with valid credentials,
an insufficient allowance and a working node, the approval submission's
trace records a gas-estimation call for the approve clause before its
broadcast, although the caller passed the fixed gas budget 100000; the
swap submission's trace likewise records a gas-estimation call although
its caller passed the fixed gas budget 300000. The pipeline's
buildTransaction step estimates unconditionally. -/
theorem transaction_pipeline_always_estimates_gas :
    (checkAndApproveTokenAllowance worldOk VTHO_ADDRESS DEX_ROUTER_ADDRESS
        TRADE_AMOUNT_VTHO "testnet").snd =
      [.estimateGasCall [approveClauseOf VTHO_ADDRESS DEX_ROUTER_ADDRESS],
       .broadcast [approveClauseOf VTHO_ADDRESS DEX_ROUTER_ADDRESS] "0xtx1",
       .awaitReceipt "0xtx1"] ∧
    (executeVTHOtoVETSwap worldOk 5 (some ratio100to8)).snd =
      [.estimateGasCall [swapClauseOf 7600000000000000000 "0xaddr-of-mnemonic-12" 1700000300],
       .broadcast [swapClauseOf 7600000000000000000 "0xaddr-of-mnemonic-12" 1700000300] "0xtx1",
       .awaitReceipt "0xtx1"] := by
  constructor
  · decide
  · have h := swap_run_with_ratio worldOk 5 ratio100to8 8
      { mnemonic := some mnemonic12 } "generic mnemonic" "0xaddr-of-mnemonic-12"
      (by decide) (by decide) (by decide) (by decide)
    rw [ratFloor_8e18, minOutput_8e18_5] at h
    rw [h]
    decide

/-- C3 counterexample: for the 100 VTHO → 8 VET quote at 5% slippage
tolerance, the swap executor's computed minimum output is not
7.6 × 10^17. -/
theorem swap_minOutput_quote8_is_not_76e17 :
    minOutputOfWei (outputAmountWeiOf 8) 5 ≠ 760000000000000000 := by
  rw [outputAmountWeiOf, ratFloor_8e18, minOutput_8e18_5]
  decide

/-- C3 (amended): for the 100 VTHO → 8 VET quote at 5% slippage tolerance
the computed minimum output equals 7.6 × 10^18 in 18-decimal base units,
and the executor broadcasts exactly that value inside the swap clause. -/
theorem swap_minOutput_quote8_is_76e18 :
    minOutputOfWei (outputAmountWeiOf 8) 5 = 7600000000000000000 ∧
    (executeVTHOtoVETSwap worldOk 5 (some ratio100to8)).snd =
      [.estimateGasCall [swapClauseOf 7600000000000000000 "0xaddr-of-mnemonic-12" 1700000300],
       .broadcast [swapClauseOf 7600000000000000000 "0xaddr-of-mnemonic-12" 1700000300] "0xtx1",
       .awaitReceipt "0xtx1"] := by
  constructor
  · rw [outputAmountWeiOf, ratFloor_8e18, minOutput_8e18_5]
  · have h := swap_run_with_ratio worldOk 5 ratio100to8 8
      { mnemonic := some mnemonic12 } "generic mnemonic" "0xaddr-of-mnemonic-12"
      (by decide) (by decide) (by decide) (by decide)
    rw [ratFloor_8e18, minOutput_8e18_5] at h
    rw [h]
    decide

set_option maxRecDepth 4000 in
/-- C4 counterexample: at the quoted output amount 8000000000000001024
base units with slippage tolerance 5 percent (fraction s = 0.05), the
binary64 computation the executor performs yields 7600000000000001024,
while the exact floor of output times (1 - s) is 7600000000000000972: the
computed minimum output is not that floor and exceeds it — the correctly
rounded double product lands above the exact value, refuting both the
equals-the-floor and the never-rounds-up parts of the claim. -/
theorem dblMinOutput_rounds_up_past_floor :
    dblMinOutputOfWei 8000000000000001024 5 = 7600000000000001024 ∧
    Int.floor ((8000000000000001024 : ℚ) * (1 - 5 / 100)) = 7600000000000000972 ∧
    (7600000000000000972 : ℕ) < dblMinOutputOfWei 8000000000000001024 5 := by
  refine ⟨by decide, ?_, by decide⟩
  rw [Int.floor_eq_iff]
  constructor <;> norm_num

set_option maxRecDepth 4000 in
/-- C4 (amended): the swap executor's minimum output is the binary64
evaluation of output times (1 - s) — each operation rounded to nearest
double — rather than the exact floor; it agrees with the exact floor
where the double arithmetic is exact: output 100 with s = 0.05 yields 95
(the floor's value), and the 8 VET quote's output 8 x 10^18 with s = 0.05
agrees with the idealized exact-rational minOutputOfWei, while outputs
whose rounded product crosses an integer boundary exceed the exact floor
(the counterexample input). -/
theorem dblMinOutput_is_double_evaluation :
    dblMinOutputOfWei 100 5 = 95 ∧
    Int.floor ((100 : ℚ) * (1 - 5 / 100)) = 95 ∧
    dblMinOutputOfWei 8000000000000000000 5 = 7600000000000000000 ∧
    (dblMinOutputOfWei 8000000000000000000 5 : ℤ) = minOutputOfWei 8000000000000000000 5 := by
  refine ⟨by decide, ?_, by decide, ?_⟩
  · rw [show ((100 : ℚ) * (1 - 5 / 100)) = ((95 : ℤ) : ℚ) by norm_num]
    exact Int.floor_intCast _
  · rw [minOutput_8e18_5]
    decide

/-- C5 counterexample: with a one-word mnemonic in the environment, signer
resolution does not fail — it returns a signer holding that single word. -/
theorem short_mnemonic_still_resolves :
    createSignerFromEnv { MNEMONIC := some "hello" } "testnet" =
      .ok ({ mnemonic := some ["hello"] }, "generic mnemonic") := by
  decide

/-- C5 (amended): signer resolution itself returns the signer regardless
of word count; the fewer-than-12-words check fires at key and address
derivation, which fail with the malformed-mnemonic error for short
mnemonics and succeed for 12 or more words, deterministically — the
derived key and address are functions of the word list alone. -/
theorem mnemonic_length_checked_at_derivation (sdk : Sdk) (words : List String) :
    (words.length < 12 →
      getPrivateKey sdk { mnemonic := some words } =
        .error (.mnemonicDerivation (.malformedMnemonic words.length)) ∧
      getWalletAddress sdk { mnemonic := some words } =
        .error (.addressDerivation (.malformedMnemonic words.length))) ∧
    (12 ≤ words.length →
      getPrivateKey sdk { mnemonic := some words } = .ok (sdk.mnemonicToPrivateKey words) ∧
      getWalletAddress sdk { mnemonic := some words } = .ok (sdk.addressOfMnemonic words)) := by
  constructor
  · intro h
    constructor
    · unfold getPrivateKey
      simp [h]
    · unfold getWalletAddress
      simp [h]
  · intro h
    have h2 : ¬ words.length < 12 := by omega
    constructor
    · unfold getPrivateKey
      simp [h2]
    · unfold getWalletAddress
      simp [h2]

/-- C5 witness: the derivation-time check at a one-word and at a
twelve-word mnemonic. -/
theorem mnemonic_length_checked_at_derivation_witness :
    (["hello"].length < 12 ∧
      getPrivateKey sdkEx { mnemonic := some ["hello"] } =
        .error (.mnemonicDerivation (.malformedMnemonic 1))) ∧
    (12 ≤ mnemonic12.length ∧
      getWalletAddress sdkEx { mnemonic := some mnemonic12 } =
        .ok (sdkEx.addressOfMnemonic mnemonic12)) :=
  ⟨⟨by decide, ((mnemonic_length_checked_at_derivation sdkEx ["hello"]).1 (by decide)).1⟩,
   ⟨by decide, ((mnemonic_length_checked_at_derivation sdkEx mnemonic12).2 (by decide)).2⟩⟩

/-- C6 counterexample: when gas estimation fails, executeTransaction does
not return a success-flagged result — the rejection propagates out of the
pipeline as an error (the pipeline's own result record has no success
field at all). -/
theorem executeTransaction_rejects_on_step_failure :
    (executeTransaction sdkEx nodeEstimateFails
        [approveClauseOf VTHO_ADDRESS DEX_ROUTER_ADDRESS] signerKeyEx {}).fst =
      .error (.raised "estimation reverted") := by
  decide

/-- C6 (amended): a failing pipeline step makes executeTransaction reject
with that step's error rather than return a result, and the calling
components catch the rejection at their own boundary: whenever the
allowance orchestrator or the swap executor reports success = false, its
error field is populated. -/
theorem pipeline_throws_and_components_catch :
    (∀ (sdk : Sdk) (node : ThorNode) (clauses : List TransactionClause)
       (signer : TransactionSigner) (options : TransactionExecutionOptions)
       (pk : List Nat) (e : JsError),
       getPrivateKey sdk signer = .ok pk →
       node.estimateGas clauses = .error e →
       executeTransaction sdk node clauses signer options =
         (.error e, [.estimateGasCall clauses])) ∧
    (∀ (w : World) (tokenAddress spenderAddress requiredAmount network : String),
       (checkAndApproveTokenAllowance w tokenAddress spenderAddress
         requiredAmount network).fst.success = false →
       (checkAndApproveTokenAllowance w tokenAddress spenderAddress
         requiredAmount network).fst.error.isSome = true) ∧
    (∀ (w : World) (slippageTolerance : ℚ) (expectedRatio : Option PriceRatio),
       (executeVTHOtoVETSwap w slippageTolerance expectedRatio).fst.success = false →
       (executeVTHOtoVETSwap w slippageTolerance expectedRatio).fst.error.isSome = true) := by
  refine ⟨?_, ?_, ?_⟩
  · intro sdk node clauses signer options pk e hpk hest
    unfold executeTransaction
    rw [hpk]
    dsimp only
    unfold buildTransaction
    rw [hest]
  · intro w tokenAddress spenderAddress requiredAmount network
    unfold checkAndApproveTokenAllowance
    repeat' split
    all_goals simp
  · intro w slippageTolerance expectedRatio
    unfold executeVTHOtoVETSwap swapWithRatio
    repeat' (first
      | split
      | unfold amountEntry formattedAmount placeholderRatio jsMulPow18 jsFloorBigInt
      | dsimp only)
    all_goals simp

/-- C6 witness: the propagation part applied at a concrete failing node. -/
theorem pipeline_throws_and_components_catch_witness :
    getPrivateKey sdkEx signerKeyEx = .ok (List.replicate 32 1) ∧
    nodeEstimateFails.estimateGas [] = .error (.raised "estimation reverted") ∧
    executeTransaction sdkEx nodeEstimateFails [] signerKeyEx {} =
      (.error (.raised "estimation reverted"), [.estimateGasCall []]) :=
  ⟨by decide, by decide,
    pipeline_throws_and_components_catch.1 sdkEx nodeEstimateFails [] signerKeyEx {}
      (List.replicate 32 1) (.raised "estimation reverted") (by decide) (by decide)⟩

/-- C7 counterexample: a successful but malformed read response with no
entries yields a ratio whose output field is NaN — not the all-zero
ratio the claim requires for malformed responses. -/
theorem quote_malformed_response_not_zeroed :
    (getVETVTHORatio (.ok (.arr []))).outputVET = JsNumber.nan ∧
    getVETVTHORatio (.ok (.arr [])) ≠ zeroRatio :=
  ⟨rfl, by decide⟩

/-- C7 (amended): when the underlying read call rejects (network error or
revert) the quote returns the all-zero ratio, and a response whose leading
entry is a string failing numeric conversion also returns the all-zero
ratio through the catch; the quote is a total function — it never throws —
but a successful response missing entries produces NaN fields instead of
zeros. -/
theorem quote_zeroed_on_read_failure :
    (∀ e : JsError, getVETVTHORatio (.error e) = zeroRatio) ∧
    (∀ (s : String) (rest : List ChainValue), jsBigIntOfString s = none →
      getVETVTHORatio (.ok (.arr (.str s :: rest))) = zeroRatio) := by
  constructor
  · intro e
    rfl
  · intro s rest h
    unfold getVETVTHORatio
    simp [amountEntry, h]

/-- C7 witness: the catch path at a concrete unparsable entry. -/
theorem quote_zeroed_on_read_failure_witness :
    jsBigIntOfString "xyz" = none ∧
    getVETVTHORatio (.ok (.arr [.str "xyz"])) = zeroRatio :=
  ⟨by decide, quote_zeroed_on_read_failure.2 "xyz" [] (by decide)⟩

/-- C8: whenever the allowance read returns a value at least the required
amount, the orchestrator returns the success record and performs no
pipeline call at all — the trace is empty, so no approval transaction is
submitted. -/
theorem allowance_sufficient_no_submission (w : World)
    (tokenAddress spenderAddress requiredAmount network : String)
    (signer : TransactionSigner) (source walletAddress : String)
    (allowanceValue : ChainValue) (allowanceInt requiredInt : ℤ)
    (h1 : createSignerFromEnv w.env network = .ok (signer, source))
    (h2 : ¬(signer.mnemonic = none ∧ signer.privateKey = none))
    (h3 : getWalletAddress w.sdk signer = .ok walletAddress)
    (h4 : w.allowance walletAddress spenderAddress = .ok allowanceValue)
    (h5 : chainValueBigInt allowanceValue = some allowanceInt)
    (h6 : jsBigIntOfString requiredAmount = some requiredInt)
    (h7 : requiredInt ≤ allowanceInt) :
    checkAndApproveTokenAllowance w tokenAddress spenderAddress requiredAmount network =
      ({ success := true, approved := true,
         allowance := some (toString allowanceInt), spender := some spenderAddress }, []) := by
  unfold checkAndApproveTokenAllowance
  rw [h1]
  dsimp only
  rw [if_neg h2, h3]
  dsimp only
  rw [h4]
  dsimp only
  rw [h5]
  dsimp only
  rw [h6]
  dsimp only
  rw [if_pos h7]

/-- C8 witness: the orchestrator at a world whose allowance equals the
required trade amount. -/
theorem allowance_sufficient_no_submission_witness :
    (10000000000000000000 : ℤ) ≤ 10000000000000000000 ∧
    checkAndApproveTokenAllowance worldAllowanceHigh VTHO_ADDRESS DEX_ROUTER_ADDRESS
        TRADE_AMOUNT_VTHO "testnet" =
      ({ success := true, approved := true,
         allowance := some (toString (10000000000000000000 : ℤ)),
         spender := some DEX_ROUTER_ADDRESS }, []) :=
  ⟨by decide,
    allowance_sufficient_no_submission worldAllowanceHigh VTHO_ADDRESS DEX_ROUTER_ADDRESS
      TRADE_AMOUNT_VTHO "testnet" { mnemonic := some mnemonic12 } "generic mnemonic"
      "0xaddr-of-mnemonic-12" (.big 10000000000000000000) 10000000000000000000
      10000000000000000000 (by decide) (by decide) (by decide) (by decide) (by decide)
      (by decide) (by decide)⟩

/-- C9: signer resolution follows the specification's precedence order —
network-specific mnemonic, network-specific raw key, generic mnemonic,
generic raw key — returning the first credential present, and fails with
the no-credentials error when none of the four is present; resolveCredential
and firstCredential state that order in the specification's words. -/
theorem createSignerFromEnv_follows_precedence (env : Env) (networkType : String) :
    createSignerFromEnv env networkType =
      resolveCredential (firstCredential env networkType) networkType := by
  unfold createSignerFromEnv firstCredential resolveCredential genericCredentials
  by_cases hnt : networkType = "mainnet"
  · simp only [if_pos hnt]
    cases truthy env.MAINNET_MNEMONIC <;> cases truthy env.MAINNET_PRIVATE_KEY <;>
      cases truthy env.MNEMONIC <;> cases truthy env.PRIVATE_KEY <;> rfl
  · simp only [if_neg hnt]
    cases truthy env.TESTNET_MNEMONIC <;> cases truthy env.TESTNET_PRIVATE_KEY <;>
      cases truthy env.MNEMONIC <;> cases truthy env.PRIVATE_KEY <;> rfl

/-- C10: whenever the transaction pipeline returns without rejecting, the
swap executor reports success = true and passes the receipt through
without inspecting it — the conclusion holds for every receipt, including
one recording an on-chain revert. -/
theorem swap_success_passes_receipt_unread (w : World) (slippageTolerance : ℚ)
    (ratio : PriceRatio) (q : ℚ) (signer : TransactionSigner)
    (source walletAddress : String) (r : ExecTxResult) (evs : List PipelineEvent)
    (h1 : createSignerFromEnv w.env ((truthy w.env.NETWORK).getD "testnet") =
      .ok (signer, source))
    (h2 : ¬(signer.mnemonic = none ∧ signer.privateKey = none))
    (h3 : getWalletAddress w.sdk signer = .ok walletAddress)
    (h4 : ratio.outputVET = .num q)
    (h5 : executeTransaction w.sdk w.node
        [swapClauseOf (minOutputOfWei (ratFloor (q * 10 ^ 18)) slippageTolerance)
          walletAddress ((w.nowMillis / 1000 : Nat) + 300)] signer
        { waitForReceipt := some true, gas := some 300000, gasPriceCoef := some 0 } =
      (.ok r, evs)) :
    executeVTHOtoVETSwap w slippageTolerance (some ratio) =
      ({ success := true, transactionId := some r.transactionId,
         receipt := r.receipt }, evs) := by
  rw [swap_run_with_ratio w slippageTolerance ratio q signer source walletAddress h1 h2 h3 h4,
    h5]

/-- C10 witness: a run whose awaited receipt records an on-chain revert is
still reported as success = true, with the reverted receipt passed
through. -/
theorem swap_success_passes_receipt_unread_witness :
    nodeRevertedReceipt.waitForTransaction "0xtx1" =
      .ok { reverted := true, gasUsed := 300000 } ∧
    executeVTHOtoVETSwap worldReverted 5 (some ratio100to8) =
      ({ success := true, transactionId := some "0xtx1",
         receipt := some { reverted := true, gasUsed := 300000 } },
       [.estimateGasCall [swapClauseOf 7600000000000000000 "0xaddr-of-mnemonic-12" 1700000300],
        .broadcast [swapClauseOf 7600000000000000000 "0xaddr-of-mnemonic-12" 1700000300] "0xtx1",
        .awaitReceipt "0xtx1"]) := by
  constructor
  · decide
  · have h5 : executeTransaction worldReverted.sdk worldReverted.node
        [swapClauseOf (minOutputOfWei (ratFloor ((8 : ℚ) * 10 ^ 18)) 5) "0xaddr-of-mnemonic-12"
          ((worldReverted.nowMillis / 1000 : Nat) + 300)] { mnemonic := some mnemonic12 }
        { waitForReceipt := some true, gas := some 300000, gasPriceCoef := some 0 } =
      (.ok { transactionId := "0xtx1", receipt := some { reverted := true, gasUsed := 300000 } },
       [.estimateGasCall [swapClauseOf 7600000000000000000 "0xaddr-of-mnemonic-12" 1700000300],
        .broadcast [swapClauseOf 7600000000000000000 "0xaddr-of-mnemonic-12" 1700000300] "0xtx1",
        .awaitReceipt "0xtx1"]) := by
      rw [ratFloor_8e18, minOutput_8e18_5]
      decide
    exact swap_success_passes_receipt_unread worldReverted 5 ratio100to8 8
      { mnemonic := some mnemonic12 } "generic mnemonic" "0xaddr-of-mnemonic-12"
      { transactionId := "0xtx1", receipt := some { reverted := true, gasUsed := 300000 } }
      [.estimateGasCall [swapClauseOf 7600000000000000000 "0xaddr-of-mnemonic-12" 1700000300],
       .broadcast [swapClauseOf 7600000000000000000 "0xaddr-of-mnemonic-12" 1700000300] "0xtx1",
       .awaitReceipt "0xtx1"]
      (by decide) (by decide) (by decide) (by decide) h5

end VechainTrading
